import Mathlib

/-!
Shallow embedding of the SymulacjeF1 race-simulation core (Rust) used to check
the specification's claims.  Real arithmetic of the source's `f64` is embedded
as `ℚ` (all constants in the source are exact rationals); the source's use of
`f64::INFINITY` as a sentinel value is embedded by the two-constructor type
`FTime`.  Each definition is annotated with the source file and lines it
translates.
-/

namespace RaceSim

/-- ASCII uppercase of a string, embedding Rust `str::to_uppercase` for the
ASCII compound names the simulator uses. -/
def toUpperAscii (s : String) : String := ⟨s.data.map Char.toUpper⟩

/-! ## Tire model — src/racesim/src/core/tireset.rs -/

/-- `tireset.rs` line 3: maximal tire-degradation penalty (seconds). -/
def MAX_TIRE_PENALTY : ℚ := 25

/-- `tireset.rs` lines 5-10. -/
inductive DegrModel where
  | lin
  | nonlinWithCliff
deriving DecidableEq

/-- `tireset.rs` lines 15-22. -/
structure DegrPars where
  degr_model : DegrModel
  k_0 : ℚ
  k_1_lin : ℚ
  cliff_age : Option ℚ
  k_2_cliff : Option ℚ
deriving DecidableEq

/-- `tireset.rs` lines 24-29. -/
structure Tireset where
  compound : String
  age_tot : ℚ
  age_cur_stint : ℚ
deriving DecidableEq

/-- `tireset.rs` lines 31-39. -/
structure TireCompoundConfig where
  k0 : ℚ
  k1_lin : ℚ
  k1_scale : ℚ
  default_cliff_age : ℚ
  default_k2 : ℚ
  base_offset : ℚ
deriving DecidableEq

/-- `tireset.rs` lines 41-48. -/
structure TireConfig where
  soft : TireCompoundConfig
  medium : TireCompoundConfig
  hard : TireCompoundConfig
  intermediate : TireCompoundConfig
  wet : TireCompoundConfig
deriving DecidableEq

/-- `TireConfig::for_compound`, `tireset.rs` lines 51-60.  The Rust `match` on
the uppercased `&str` is written as the equivalent chain of equality tests;
any name other than the five known compounds yields the `medium` entry
(the source comments this arm `// neutral fallback`). -/
def TireConfig.forCompound (cfg : TireConfig) (comp : String) : TireCompoundConfig :=
  let c := toUpperAscii comp
  if c = "SOFT" then cfg.soft
  else if c = "MEDIUM" then cfg.medium
  else if c = "HARD" then cfg.hard
  else if c = "INTERMEDIATE" then cfg.intermediate
  else if c = "WET" then cfg.wet
  else cfg.medium

/-- `TireConfig::degr_pars_for_compound`, `tireset.rs` lines 63-72. -/
def TireConfig.degrParsForCompound (cfg : TireConfig) (comp : String) : DegrPars :=
  let c := cfg.forCompound comp
  { degr_model := .lin
    k_0 := c.k0
    k_1_lin := c.k1_lin
    cliff_age := some c.default_cliff_age
    k_2_cliff := some c.default_k2 }

/-- `Tireset::new`, `tireset.rs` lines 76-82: a fresh set starts with
`age_tot` equal to the given age and `age_cur_stint` equal to `0.0`. -/
def Tireset.new (compound : String) (age_tot : ℕ) : Tireset :=
  { compound := compound, age_tot := (age_tot : ℚ), age_cur_stint := 0 }

/-- `Tireset::drive_lap`, `tireset.rs` lines 85-88. -/
def Tireset.driveLap (ts : Tireset) (wear_factor : ℚ) : Tireset :=
  { ts with
    age_cur_stint := ts.age_cur_stint + 1 * wear_factor
    age_tot := ts.age_tot + 1 * wear_factor }

/-- `Tireset::calc_tire_degr`, `tireset.rs` lines 101-148.  `powf(2.0)` on the
nonnegative `over` is written as `^ 2`. -/
def Tireset.calcTireDegr (ts : Tireset) (degr_pars : DegrPars) (tire_cfg : TireConfig) : ℚ :=
  let age := ts.age_cur_stint
  let cfg := tire_cfg.forCompound ts.compound
  match degr_pars.degr_model with
  | .lin =>
      let linear_degr := degr_pars.k_0 + (degr_pars.k_1_lin * cfg.k1_scale) * age
      let cliff_penalty :=
        if age > cfg.default_cliff_age then
          min (cfg.default_k2 * (age - cfg.default_cliff_age) ^ 2) MAX_TIRE_PENALTY
        else 0
      cfg.base_offset + linear_degr + cliff_penalty
  | .nonlinWithCliff =>
      let degradation := degr_pars.k_0 + degr_pars.k_1_lin * age
      let cliff_age := degr_pars.cliff_age.getD cfg.default_cliff_age
      let k_2 := degr_pars.k_2_cliff.getD cfg.default_k2
      let degradation :=
        if age > cliff_age then
          degradation + min (k_2 * (age - cliff_age) ^ 2) MAX_TIRE_PENALTY
        else degradation
      cfg.base_offset + degradation

/-- `Tireset::t_add_tireset`, `tireset.rs` lines 92-94. -/
def Tireset.tAddTireset (ts : Tireset) (degr_pars : DegrPars) (tire_cfg : TireConfig) : ℚ :=
  ts.calcTireDegr degr_pars tire_cfg

/-! ## Car — src/racesim/src/core/car.rs -/

/-- `car.rs` lines 23-27. -/
inductive CarStatus where
  | running
  | dnf
deriving DecidableEq

/-- `car.rs` lines 15-21. -/
structure StrategyEntry where
  inlap : ℕ
  tire_start_age : ℕ
  compound : String
  driver_initials : String
deriving DecidableEq

/-- The fields of `Car` (`car.rs` lines 50-70) used by the claims; the
driver's relevant attributes (`driver.rs`) are inlined as `driver_t_driver`
and `driver_consistency`. -/
structure Car where
  status : CarStatus
  t_car : ℚ
  m_fuel : ℚ
  b_fuel_per_lap : ℚ
  strategy : List StrategyEntry
  driver_t_driver : ℚ
  driver_consistency : ℚ
  tireset : Tireset
  dirty_air_wear_factor : ℚ
  last_slick_compound : Option String
  accumulated_damage_penalty : ℚ
deriving DecidableEq

/-- `Car::calc_basic_timeloss`, `car.rs` lines 102-136.  The Rust `match` on
the uppercased compound is written as the equivalent equality chain. -/
def Car.calcBasicTimeloss (car : Car) (s_mass : ℚ) (is_wet : Bool) (tire_cfg : TireConfig) : ℚ :=
  let degr_pars := tire_cfg.degrParsForCompound car.tireset.compound
  let tire_loss := car.tireset.tAddTireset degr_pars tire_cfg
  let compound_str := toUpperAscii car.tireset.compound
  let weather_penalty : ℚ :=
    if is_wet then
      let wet_track_base_penalty : ℚ := 12
      if compound_str = "SOFT" ∨ compound_str = "MEDIUM" ∨ compound_str = "HARD" then
        wet_track_base_penalty + 30
      else if compound_str = "INTERMEDIATE" then wet_track_base_penalty
      else if compound_str = "WET" then wet_track_base_penalty + 2
      else wet_track_base_penalty
    else
      if compound_str = "INTERMEDIATE" ∨ compound_str = "WET" then 5 else 0
  car.t_car + car.driver_t_driver + tire_loss + car.m_fuel * s_mass
    + weather_penalty + car.accumulated_damage_penalty

/-- `Car::get_strategy_entry`, `car.rs` lines 183-188. -/
def Car.getStrategyEntry (car : Car) (inlap : ℕ) : Option StrategyEntry :=
  car.strategy.find? (fun x => x.inlap == inlap)

/-- `Car::perform_pitstop`, `car.rs` lines 192-217 (tire change only; the
source performs no refueling). -/
def Car.performPitstop (car : Car) (inlap : ℕ) : Car :=
  match car.getStrategyEntry inlap with
  | some strategy_entry =>
      if strategy_entry.compound ≠ "" then
        let tireset := Tireset.new strategy_entry.compound strategy_entry.tire_start_age
        let c := toUpperAscii tireset.compound
        let last_slick :=
          if c = "SOFT" ∨ c = "MEDIUM" ∨ c = "HARD" then some tireset.compound
          else car.last_slick_compound
        { car with tireset := tireset, last_slick_compound := last_slick }
      else car
  | none => car

/-- `Car::set_fuel_mass`, `car.rs` lines 262-264. -/
def setFuelMass (mass : ℚ) : ℚ := max mass 0

/-- `Car::fuel_needed_for_laps`, `car.rs` lines 270-272. -/
def fuelNeededForLaps (b_fuel_per_lap : ℚ) (laps : ℕ) : ℚ := b_fuel_per_lap * (laps : ℚ)

/-- The fuel top-up of `Race::new`, `race.rs` lines 188-195: raise the starting
fuel to `b_fuel_per_lap * tot_no_laps * (1 + fuel_margin)` when below it. -/
def initFuelMass (m_fuel b_fuel_per_lap : ℚ) (tot_no_laps : ℕ) (fuel_margin : ℚ) : ℚ :=
  let required := fuelNeededForLaps b_fuel_per_lap tot_no_laps
  let target := required * (1 + fuel_margin)
  if m_fuel < target then setFuelMass target else m_fuel

/-- `Car::drive_lap`, `car.rs` lines 140-172.  The engine-failure Bernoulli
draw is abstracted into the Boolean sample `engine_fails` (the draw happens
only for running cars, exactly as in the source). -/
def Car.driveLap (car : Car) (engine_fails : Bool) : Car :=
  if car.status = .dnf then car
  else
    let car1 := if engine_fails then { car with status := CarStatus.dnf } else car
    let car2 :=
      if car1.m_fuel > 0 then
        { car1 with m_fuel := max (car1.m_fuel - car1.b_fuel_per_lap) 0 }
      else car1
    { car2 with
      tireset := car2.tireset.driveLap car2.dirty_air_wear_factor
      dirty_air_wear_factor := 1 }

/-! ## Lap times — src/racesim/src/core/race.rs -/

/-- A lap-time value: either a finite time or the `f64::INFINITY` sentinel the
source stores for DNF cars and for a standstill without release. -/
inductive FTime where
  | fin : ℚ → FTime
  | inf : FTime
deriving DecidableEq

/-- The arc-length advance `timestep_size / cur_laptime * track_length` of
`StateHandler::update_race_prog` (`state_handler.rs` line 251).  An infinite
lap time advances by `0`, matching IEEE `dt / INFINITY == 0.0`. -/
def FTime.advance (cur_laptime : FTime) (timestep_size track_length : ℚ) : ℚ :=
  match cur_laptime with
  | .fin t => timestep_size / t * track_length
  | .inf => 0

/-- Division of a lap time by a (positive) track multiplier, embedding the
`f64` division at `race.rs` line 540; IEEE gives `INFINITY / m == INFINITY`
for the positive multipliers the track produces (clamped to at least 0.5 and
normalized by a positive mean, `track.rs` lines 159-178). -/
def FTime.divQ (t : FTime) (m : ℚ) : FTime :=
  match t with
  | .fin x => .fin (x / m)
  | .inf => .inf

/-- `std_dev = (1.0 - consistency) * 2.0` of `Race::calc_th_laptime`,
`race.rs` line 465. -/
def stdDev (consistency : ℚ) : ℚ := (1 - consistency) * 2

/-- `Race::calc_th_laptime`, `race.rs` lines 458-484.  The sample of
`Normal(0, std_dev)` is abstracted into the parameter `random_factor` (the
source draws it only when `std_dev > 0` and otherwise uses `0.0`). -/
def calcThLaptime (car : Car) (t_q t_gap_racepace s_mass : ℚ) (is_wet : Bool)
    (tire_cfg : TireConfig) (random_factor : ℚ) : FTime :=
  if car.status = .dnf then .inf
  else .fin (t_q + t_gap_racepace + car.calcBasicTimeloss s_mass is_wet tire_cfg + random_factor)

/-- The multiplier lookup of `Race::calc_cur_laptimes`, `race.rs` lines
516-534: map `s_track / length * count` to an index (`as usize` truncates,
and is `0` for negative values, as `Nat.floor` is), clamp to the last entry,
and default to `1.0` for an empty vector. -/
def multiplierAt (multipliers : List ℚ) (track_length s_track : ℚ) : ℚ :=
  let mult_count := multipliers.length
  let idx0 := ⌊s_track / track_length * (mult_count : ℚ)⌋₊
  let idx_m := if idx0 ≥ mult_count then mult_count - 1 else idx0
  if mult_count > 0 then multipliers.getD idx_m 1 else 1

/-- The per-car base assignment of `Race::calc_cur_laptimes`, `race.rs` lines
506-540: a DNF car's entry is set to `INFINITY` (and skipped by `continue`);
a running car starts from `cur_th_laptime` divided by the local track
multiplier.  The later flag/DRS/duel/corner/pit additions and pairwise
interaction terms (lines 545-891) are outside this fragment. -/
def calcCurLaptimeBase (car : Car) (cur_th_laptime : FTime)
    (multipliers : List ℚ) (track_length s_track : ℚ) : FTime :=
  if car.status = .dnf then .inf
  else cur_th_laptime.divQ (multiplierAt multipliers track_length s_track)

/-- The initial grid arc-length of `Race::new`, `race.rs` lines 251-252:
`d_first_gridpos + (p_grid - 1) * d_per_gridpos`.  Note `track.rs` documents
`d_per_gridpos` as negative (grid boxes lie behind the finish line). -/
def sTrackStart (d_first_gridpos d_per_gridpos : ℚ) (p_grid : ℕ) : ℚ :=
  d_first_gridpos + ((p_grid - 1 : ℕ) : ℚ) * d_per_gridpos

/-! ## State handler — src/racesim/src/core/state_handler.rs -/

/-- The progress-related fields of `StateHandler` (`state_handler.rs` lines
14-41). -/
structure StateHandler where
  track_length : ℚ
  s_track_prev : ℚ
  s_track_cur : ℚ
  compl_lap_prev : ℕ
  compl_lap_cur : ℕ
deriving DecidableEq

/-- `StateHandler::get_new_lap`, `state_handler.rs` lines 229-231. -/
def StateHandler.getNewLap (sh : StateHandler) : Bool :=
  decide (sh.compl_lap_cur > sh.compl_lap_prev)

/-- `StateHandler::get_s_track_passed_this_step`, `state_handler.rs` lines
74-85, with the Rust `&&`/`||` precedence made explicit. -/
def StateHandler.getSTrackPassedThisStep (sh : StateHandler) (s_track : ℚ) : Bool :=
  let new_lap := sh.getNewLap
  ((decide (sh.s_track_prev < s_track) || new_lap) && decide (s_track ≤ sh.s_track_cur))
    || (decide (sh.s_track_prev < s_track)
          && (decide (s_track ≤ sh.s_track_cur) || new_lap))

/-- `StateHandler::get_lap_fracs`, `state_handler.rs` lines 185-199
(including the source's ad-hoc handling of negative positions). -/
def StateHandler.getLapFracs (sh : StateHandler) : ℚ × ℚ :=
  let lap_frac_prev :=
    if sh.s_track_prev < 0 then (sh.s_track_prev + sh.track_length) / sh.track_length
    else sh.s_track_prev / sh.track_length
  let lap_frac_cur :=
    if sh.s_track_cur < 0 then (sh.s_track_cur + sh.s_track_cur) / sh.track_length
    else sh.s_track_cur / sh.track_length
  (lap_frac_prev, lap_frac_cur)

/-- `StateHandler::update_race_prog`, `state_handler.rs` lines 245-258. -/
def StateHandler.updateRaceProg (sh : StateHandler) (cur_laptime : FTime)
    (timestep_size : ℚ) : StateHandler :=
  let sh1 := { sh with compl_lap_prev := sh.compl_lap_cur, s_track_prev := sh.s_track_cur }
  let s_new := sh1.s_track_cur + cur_laptime.advance timestep_size sh1.track_length
  if s_new ≥ sh1.track_length then
    { sh1 with s_track_cur := s_new - sh1.track_length, compl_lap_cur := sh1.compl_lap_cur + 1 }
  else
    { sh1 with s_track_cur := s_new }

/-! ## Lap accounting — src/racesim/src/core/race.rs -/

/-- The per-car accounting block of `Race::handle_lap_transitions`, `race.rs`
lines 994-1007, executed for a car whose `compl_lap_cur` just incremented:
under the guard `compl_lap_cur <= tot_no_laps` it writes row entries
`laptimes[k]` and `racetimes[k]` (reading back `laptimes[k]` it just set,
as the source does). -/
def handleLapAccounting (laptimes racetimes : List ℚ) (compl_lap_cur tot_no_laps : ℕ)
    (cur_racetime timestep_size lap_frac_prev cur_laptime : ℚ) : List ℚ × List ℚ :=
  if compl_lap_cur ≤ tot_no_laps then
    let t_part_old := (1 - lap_frac_prev) * cur_laptime
    let laptime_k := cur_racetime - timestep_size + t_part_old
      - racetimes.getD (compl_lap_cur - 1) 0
    let laptimes1 := laptimes.set compl_lap_cur laptime_k
    let racetimes1 := racetimes.set compl_lap_cur
      (racetimes.getD (compl_lap_cur - 1) 0 + laptimes1.getD compl_lap_cur 0)
    (laptimes1, racetimes1)
  else (laptimes, racetimes)

/-! ## Flag and safety-car regime — src/racesim/src/core/race.rs -/

/-- `race.rs` lines 71-78. -/
inductive FlagState where
  | g
  | y
  | vsc
  | sc
  | c
deriving DecidableEq

/-- `race.rs` lines 63-69. -/
structure SafetyCar where
  active : Bool
  s_track : ℚ
  speed : ℚ
  lap : ℕ
deriving DecidableEq

/-- `RaceEvent` (`race_result.rs`): kind, leader lap, race time, involved
cars. -/
structure RaceEvent where
  kind : String
  lap : ℕ
  time_s : ℚ
  cars : List ℕ
deriving DecidableEq

/-- The per-car data the SC logic of `simulate_timestep` reads. -/
structure CarView where
  status : CarStatus
  race_prog : ℚ
  s_track_cur : ℚ
deriving DecidableEq

/-- The SC-related mutable state of `Race` touched by `simulate_timestep`
lines 346-425: flag, safety car, SC timer, leader lap, event log and the
per-car `sc_triggers` marks. -/
structure ScState where
  flag_state : FlagState
  safety_car : SafetyCar
  sc_timer : ℚ
  cur_lap_leader : ℕ
  events : List RaceEvent
  sc_triggers : List Bool
deriving DecidableEq

/-- The leader search of `race.rs` lines 353-364: running maximum of
`race_prog` over non-DNF cars, starting from `leader_idx = 0`,
`max_prog = -1.0`. -/
def findLeaderIdx (cars : List CarView) : ℕ :=
  (cars.enum.foldl
    (fun acc p =>
      if p.2.race_prog > acc.2 ∧ p.2.status ≠ CarStatus.dnf then (p.1, p.2.race_prog) else acc)
    ((0 : ℕ), (-1 : ℚ))).1

/-- The SC insertion/advance block of `Race::simulate_timestep`, `race.rs`
lines 346-405: under flag SC, count the timer down, on the first step insert
the SC 500 m ahead of the leader (wrapping with `lap + 1`) and push the
`SC_DEPLOYED` event, advance the SC, and when the timer runs out return to
green, deactivate, and push `SC_IN`; under any other flag just clear the
active bit.  (The source's `is_finite` guard on the timer is vacuous here:
the embedded timer is always finite.) -/
def scInsertionStep (st : ScState) (cars : List CarView)
    (track_length timestep_size cur_racetime : ℚ) : ScState :=
  if st.flag_state = FlagState.sc then
    let st1 := { st with sc_timer := st.sc_timer - timestep_size }
    let st2 :=
      if st1.safety_car.active = false then
        let leader_idx := findLeaderIdx cars
        let s0 := (cars.getD leader_idx ⟨CarStatus.running, 0, 0⟩).s_track_cur + 500
        let sc1 :=
          if s0 > track_length then
            { st1.safety_car with
                active := true, s_track := s0 - track_length,
                lap := st1.cur_lap_leader + 1 }
          else
            { st1.safety_car with active := true, s_track := s0, lap := st1.cur_lap_leader }
        { st1 with
            safety_car := sc1,
            events := st1.events ++ [⟨"SC_DEPLOYED", st1.cur_lap_leader, cur_racetime, []⟩] }
      else st1
    let sc2 := { st2.safety_car with
      s_track := st2.safety_car.s_track + st2.safety_car.speed * timestep_size }
    let sc3 :=
      if sc2.s_track > track_length then
        { sc2 with s_track := sc2.s_track - track_length, lap := sc2.lap + 1 }
      else sc2
    let st3 := { st2 with safety_car := sc3 }
    if st3.sc_timer ≤ (0 : ℚ) then
      { st3 with
          flag_state := FlagState.g,
          safety_car := { st3.safety_car with active := false },
          events := st3.events ++ [⟨"SC_IN", st3.cur_lap_leader, cur_racetime, []⟩] }
    else st3
  else
    { st with safety_car := { st.safety_car with active := false } }

/-- The DNF-triggered SC deployment scan of `Race::simulate_timestep`,
`race.rs` lines 407-425: outside SC, the first car that is DNF, not
finished, and not yet trigger-consumed sets the flag to SC with a 300 s
timer and marks every currently-DNF car as consumed. -/
def scTriggerStep (st : ScState) (statuses : List CarStatus)
    (race_finished : List Bool) : ScState :=
  if st.flag_state = FlagState.sc then st
  else
    match (List.range statuses.length).find? (fun i =>
        statuses.getD i CarStatus.running == CarStatus.dnf
          && !(race_finished.getD i true)
          && !(st.sc_triggers.getD i true)) with
    | some _ =>
        { st with
            flag_state := FlagState.sc, sc_timer := 300,
            sc_triggers := (List.range st.sc_triggers.length).map
              (fun j => if statuses.getD j CarStatus.running = CarStatus.dnf then true
                        else st.sc_triggers.getD j false) }
    | none => st

/-- The SC-relevant portion of one `Race::simulate_timestep`: the insertion
block (lines 346-405) runs first, the DNF trigger scan (lines 407-425)
second.  These are the only places in a step that set the SC flag, the
`sc_triggers` marks, or push `SC_DEPLOYED`/`SC_IN` events (the rest of the
step can push `Crash`/`EngineFailure`/weather events and can set the
chequered flag at race completion). -/
def simulateTimestepSc (st : ScState) (cars : List CarView) (race_finished : List Bool)
    (track_length timestep_size cur_racetime : ℚ) : ScState :=
  scTriggerStep (scInsertionStep st cars track_length timestep_size cur_racetime)
    (cars.map (fun cv => cv.status)) race_finished

/-! ## Specification-side definitions for refinement claims -/

/-- The tire lap-time contribution exactly as the specification's sentence for
C6 states it: `base_offset + (k0 + k1_lin·scale·age) + max(0, k2·(age −
cliff_age)²)`, with the cliff term capped at 25 s. -/
def specTireDegrClaim (c : TireCompoundConfig) (age : ℚ) : ℚ :=
  c.base_offset + (c.k0 + c.k1_lin * c.k1_scale * age)
    + min (max 0 (c.default_k2 * (age - c.default_cliff_age) ^ 2)) 25

/-! ## Concrete inputs used by counterexamples and witnesses -/

/-- A compound configuration with unit cliff coefficient, cliff age 10, unit
slope scale and all offsets zero. -/
def c6Compound : TireCompoundConfig :=
  { k0 := 0, k1_lin := 0, k1_scale := 1, default_cliff_age := 10,
    default_k2 := 1, base_offset := 0 }

/-- A tire configuration assigning `c6Compound` to every compound. -/
def c6Cfg : TireConfig :=
  { soft := c6Compound, medium := c6Compound, hard := c6Compound,
    intermediate := c6Compound, wet := c6Compound }

/-- A fresh MEDIUM tire set (both ages 0). -/
def c6Ts : Tireset := { compound := "MEDIUM", age_tot := 0, age_cur_stint := 0 }

/-- A running car whose strategy pits on lap 1 onto HARD tires with
`tire_start_age = 5`. -/
def c2Car : Car :=
  { status := CarStatus.running, t_car := 0, m_fuel := 0, b_fuel_per_lap := 0,
    strategy := [{ inlap := 1, tire_start_age := 5, compound := "HARD", driver_initials := "" }],
    driver_t_driver := 0, driver_consistency := 1,
    tireset := Tireset.new "MEDIUM" 0, dirty_air_wear_factor := 1,
    last_slick_compound := some "MEDIUM", accumulated_damage_penalty := 0 }

/-! ## C1 — race-time recurrence at lap transitions -/

/-- C1: for a car completing lap `k` (1 ≤ k ≤ tot_no_laps), after the
accounting block of `Race::handle_lap_transitions` runs, the race-time row
satisfies `racetimes[k] = racetimes[k-1] + laptimes[k]`, and `laptimes[k]`
equals `(cur_racetime - dt + t_part_old) - racetimes[k-1]` with
`t_part_old = (1 - lap_frac_prev) * cur_laptime`. -/
theorem c1_racetime_recurrence (laptimes racetimes : List ℚ) (k tot_no_laps : ℕ)
    (cur_racetime timestep_size lap_frac_prev cur_laptime : ℚ)
    (hk1 : 1 ≤ k) (hk : k ≤ tot_no_laps)
    (hl : k < laptimes.length) (hr : k < racetimes.length) :
    (handleLapAccounting laptimes racetimes k tot_no_laps cur_racetime timestep_size
        lap_frac_prev cur_laptime).2.getD k 0
      = (handleLapAccounting laptimes racetimes k tot_no_laps cur_racetime timestep_size
          lap_frac_prev cur_laptime).2.getD (k - 1) 0
        + (handleLapAccounting laptimes racetimes k tot_no_laps cur_racetime timestep_size
            lap_frac_prev cur_laptime).1.getD k 0
    ∧ (handleLapAccounting laptimes racetimes k tot_no_laps cur_racetime timestep_size
        lap_frac_prev cur_laptime).1.getD k 0
      = (cur_racetime - timestep_size + (1 - lap_frac_prev) * cur_laptime)
        - (handleLapAccounting laptimes racetimes k tot_no_laps cur_racetime timestep_size
            lap_frac_prev cur_laptime).2.getD (k - 1) 0 := by
  have hne : k - 1 ≠ k := by omega
  unfold handleLapAccounting
  rw [if_pos hk]
  simp only []
  have hset_lap : (laptimes.set k (cur_racetime - timestep_size
      + (1 - lap_frac_prev) * cur_laptime - racetimes.getD (k - 1) 0)).getD k 0
      = cur_racetime - timestep_size + (1 - lap_frac_prev) * cur_laptime
        - racetimes.getD (k - 1) 0 := by
    simp [List.getD_eq_getElem?_getD, List.getElem?_set_eq_of_lt, hl]
  have hset_race_ne : ∀ y : ℚ, (racetimes.set k y).getD (k - 1) 0 = racetimes.getD (k - 1) 0 := by
    intro y
    simp [List.getD_eq_getElem?_getD, List.getElem?_set_ne (Ne.symm hne)]
  have hset_race_eq : ∀ y : ℚ, (racetimes.set k y).getD k 0 = y := by
    intro y
    simp [List.getD_eq_getElem?_getD, List.getElem?_set_eq_of_lt, hr]
  rw [hset_lap, hset_race_ne, hset_race_eq]
  constructor
  · ring
  · ring

/-- C1 witness: the recurrence at a concrete lap crossing. -/
theorem c1_racetime_recurrence_witness :
    (handleLapAccounting [0, 0, 0, 0] [0, 0, 0, 0] 1 3 10 (1/10) (1/2) 90).2.getD 1 0
      = (handleLapAccounting [0, 0, 0, 0] [0, 0, 0, 0] 1 3 10 (1/10) (1/2) 90).2.getD (1 - 1) 0
        + (handleLapAccounting [0, 0, 0, 0] [0, 0, 0, 0] 1 3 10 (1/10) (1/2) 90).1.getD 1 0
    ∧ (handleLapAccounting [0, 0, 0, 0] [0, 0, 0, 0] 1 3 10 (1/10) (1/2) 90).1.getD 1 0
      = (10 - 1/10 + (1 - 1/2) * 90)
        - (handleLapAccounting [0, 0, 0, 0] [0, 0, 0, 0] 1 3 10 (1/10) (1/2) 90).2.getD (1 - 1) 0 :=
  c1_racetime_recurrence [0, 0, 0, 0] [0, 0, 0, 0] 1 3 10 (1/10) (1/2) 90
    (by decide) (by decide) (by decide) (by decide)

/-! ## C2 — pit-stop tire replacement ages -/

/-- C2 counterexample: pitting on lap 1 with a strategy entry whose
`tire_start_age` is 5 and compound is `HARD`, the replaced set's
current-stint age is 0, not the configured start age 5 (`Tireset::new`
always sets `age_cur_stint` to `0.0`). -/
theorem c2_pitstop_age_counterexample :
    (c2Car.performPitstop 1).tireset.age_cur_stint = 0
    ∧ (c2Car.performPitstop 1).tireset.age_tot = 5
    ∧ (c2Car.performPitstop 1).tireset.age_cur_stint ≠ 5 := by decide

/-- C2 (amended): a pit stop with a non-empty strategy compound replaces the
tire set by a fresh set whose total age equals the entry's `tire_start_age`
and whose current-stint age is reset to 0. -/
theorem c2_pitstop_new_tireset (car : Car) (inlap : ℕ) (e : StrategyEntry)
    (he : car.getStrategyEntry inlap = some e) (hc : e.compound ≠ "") :
    (car.performPitstop inlap).tireset =
      { compound := e.compound, age_tot := (e.tire_start_age : ℚ), age_cur_stint := 0 } := by
  unfold Car.performPitstop
  rw [he]
  simp [hc, Tireset.new]

/-- C2 witness for the amended statement at a concrete pit stop. -/
theorem c2_pitstop_new_tireset_witness :
    (c2Car.performPitstop 1).tireset =
      { compound := "HARD", age_tot := (5 : ℚ), age_cur_stint := 0 } :=
  c2_pitstop_new_tireset c2Car 1
    { inlap := 1, tire_start_age := 5, compound := "HARD", driver_initials := "" }
    (by decide) (by decide)

/-! ## C3 — position-range invariant -/

/-- C3 counterexample: with the grid spacing `d_per_gridpos = -8` (the track
documentation states the spacing is negative: grid boxes lie behind the
finish line) and `d_first_gridpos = 0`, the car on grid position 2 is placed
at `s = -8`, violating `0 ≤ s_cur`; `Race::new` installs this value without
any clamping. -/
theorem c3_s_cur_counterexample :
    sTrackStart 0 (-8) 2 = -8 ∧ ¬ (0 ≤ sTrackStart 0 (-8) 2) := by
  norm_num [sTrackStart]

/-- C3 (amended): `update_race_prog` preserves `0 ≤ s_cur < L` provided the
position already lies in that range and the step's arc-length advance
`dt / cur_laptime * L` lies in `[0, L]`; the initial grid placement itself
may lie outside `[0, L)` (the counterexample) and is not clamped. -/
theorem c3_update_race_prog_range (sh : StateHandler) (cur_laptime : FTime) (dt : ℚ)
    (h0 : 0 ≤ sh.s_track_cur) (h1 : sh.s_track_cur < sh.track_length)
    (ha0 : 0 ≤ cur_laptime.advance dt sh.track_length)
    (ha1 : cur_laptime.advance dt sh.track_length ≤ sh.track_length) :
    0 ≤ (sh.updateRaceProg cur_laptime dt).s_track_cur
    ∧ (sh.updateRaceProg cur_laptime dt).s_track_cur
        < (sh.updateRaceProg cur_laptime dt).track_length := by
  unfold StateHandler.updateRaceProg
  simp only []
  split
  · constructor
    · simp only []
      next h => linarith
    · simp only []
      next h => linarith
  · constructor
    · simp only []
      next h => linarith
    · simp only []
      next h => linarith

/-- C3 witness for the amended statement: a car at 100 m on a 5000 m track,
advancing 50 m in one step, stays in range. -/
theorem c3_update_race_prog_range_witness :
    0 ≤ ((⟨5000, 100, 100, 0, 0⟩ : StateHandler).updateRaceProg (FTime.fin 100) 1).s_track_cur
    ∧ ((⟨5000, 100, 100, 0, 0⟩ : StateHandler).updateRaceProg (FTime.fin 100) 1).s_track_cur
        < ((⟨5000, 100, 100, 0, 0⟩ : StateHandler).updateRaceProg (FTime.fin 100) 1).track_length :=
  c3_update_race_prog_range ⟨5000, 100, 100, 0, 0⟩ (FTime.fin 100) 1
    (by norm_num) (by norm_num)
    (by norm_num [FTime.advance]) (by norm_num [FTime.advance])

/-! ## C6 — tire-degradation formula -/

/-- C6 counterexample: for a fresh tire (stint age 0) under `c6Cfg` (cliff
age 10, k2 = 1), the source's degradation is 0 while the claim's formula
`max(0, k2·(age − cliff_age)²)` capped at 25 gives a 25 s cliff term: the
claim's cliff term fires below the cliff age. -/
theorem c6_tire_degr_counterexample :
    c6Ts.tAddTireset (c6Cfg.degrParsForCompound c6Ts.compound) c6Cfg = 0
    ∧ specTireDegrClaim (c6Cfg.forCompound c6Ts.compound) c6Ts.age_cur_stint = 25
    ∧ (0 : ℚ) ≠ 25 := by
  have hmed : toUpperAscii "MEDIUM" = "MEDIUM" := by decide
  refine ⟨?_, ?_, by norm_num⟩
  · simp only [Tireset.tAddTireset, Tireset.calcTireDegr, TireConfig.degrParsForCompound,
      TireConfig.forCompound, c6Ts, c6Cfg, c6Compound, MAX_TIRE_PENALTY, hmed]
    norm_num
  · simp only [specTireDegrClaim, TireConfig.forCompound, c6Ts, c6Cfg, c6Compound, hmed]
    norm_num

/-- C6 (amended): the tire lap-time contribution equals `base_offset + (k0 +
k1_lin·scale·age) + min(k2·(max 0 (age − cliff_age))², 25)` where `age` is
the current-stint age — the cliff term applies only beyond the cliff age
(the `max` sits inside the square, not outside it). -/
theorem c6_tire_degr_formula (ts : Tireset) (cfg : TireConfig) :
    ts.tAddTireset (cfg.degrParsForCompound ts.compound) cfg =
      (cfg.forCompound ts.compound).base_offset
        + ((cfg.forCompound ts.compound).k0
            + (cfg.forCompound ts.compound).k1_lin * (cfg.forCompound ts.compound).k1_scale
              * ts.age_cur_stint)
        + min ((cfg.forCompound ts.compound).default_k2
              * (max 0 (ts.age_cur_stint - (cfg.forCompound ts.compound).default_cliff_age)) ^ 2)
            25 := by
  unfold Tireset.tAddTireset Tireset.calcTireDegr TireConfig.degrParsForCompound MAX_TIRE_PENALTY
  simp only []
  by_cases h : ts.age_cur_stint > (cfg.forCompound ts.compound).default_cliff_age
  · rw [if_pos h, max_eq_right (by linarith :
      (0 : ℚ) ≤ ts.age_cur_stint - (cfg.forCompound ts.compound).default_cliff_age)]
  · rw [if_neg h, max_eq_left (by linarith :
      ts.age_cur_stint - (cfg.forCompound ts.compound).default_cliff_age ≤ 0)]
    norm_num

/-! ## C5 — theoretical lap-time formula -/

/-- The (weather, compound) penalty table exactly as claim C5 states it. -/
def specWeatherPenalty (is_wet : Bool) (compound_upper : String) : ℚ :=
  if is_wet then
    if compound_upper = "SOFT" ∨ compound_upper = "MEDIUM" ∨ compound_upper = "HARD" then
      12 + 30
    else if compound_upper = "INTERMEDIATE" then 12
    else if compound_upper = "WET" then 12 + 2
    else 0
  else
    if compound_upper = "INTERMEDIATE" ∨ compound_upper = "WET" then 5 else 0

/-- C5: for a running car on one of the five known compounds, the theoretical
lap time equals `t_q + Δt_rp + t_car + t_driver + Δt_tire + s_mass·m_fuel +
weather_penalty + damage_penalty + ε` with the weather penalty given by the
claim's table, and the noise scale used by the source is
`σ = (1 − consistency)·2`. -/
theorem c5_th_laptime_formula (car : Car) (t_q t_gap_racepace s_mass : ℚ) (is_wet : Bool)
    (tire_cfg : TireConfig) (eps : ℚ)
    (hrun : car.status = CarStatus.running)
    (hcomp : toUpperAscii car.tireset.compound ∈
      (["SOFT", "MEDIUM", "HARD", "INTERMEDIATE", "WET"] : List String)) :
    calcThLaptime car t_q t_gap_racepace s_mass is_wet tire_cfg eps =
      FTime.fin (t_q + t_gap_racepace + car.t_car + car.driver_t_driver
        + car.tireset.tAddTireset (tire_cfg.degrParsForCompound car.tireset.compound) tire_cfg
        + s_mass * car.m_fuel
        + specWeatherPenalty is_wet (toUpperAscii car.tireset.compound)
        + car.accumulated_damage_penalty + eps)
    ∧ stdDev car.driver_consistency = (1 - car.driver_consistency) * 2 := by
  refine ⟨?_, rfl⟩
  have hnd : ¬ car.status = CarStatus.dnf := by rw [hrun]; intro h; exact absurd h (by decide)
  unfold calcThLaptime
  rw [if_neg hnd]
  unfold Car.calcBasicTimeloss specWeatherPenalty
  simp only [List.mem_cons, List.not_mem_nil, or_false] at hcomp
  rcases hcomp with h | h | h | h | h <;>
    rw [h] <;> cases is_wet <;> simp <;> ring

/-- A concrete running car on lower-case soft tires used as the C5 witness
(also exercising the case-insensitive compound handling). -/
def c5Car : Car :=
  { status := CarStatus.running, t_car := 1/2, m_fuel := 100, b_fuel_per_lap := 2,
    strategy := [], driver_t_driver := 1/4, driver_consistency := 9/10,
    tireset := { compound := "soft", age_tot := 3, age_cur_stint := 3 },
    dirty_air_wear_factor := 1, last_slick_compound := some "soft",
    accumulated_damage_penalty := 1/10 }

/-- C5 witness at a concrete car, track and noise sample. -/
theorem c5_th_laptime_formula_witness :
    calcThLaptime c5Car 70 2 (3/100) true c6Cfg (1/5) =
      FTime.fin (70 + 2 + c5Car.t_car + c5Car.driver_t_driver
        + c5Car.tireset.tAddTireset (c6Cfg.degrParsForCompound c5Car.tireset.compound) c6Cfg
        + (3/100) * c5Car.m_fuel
        + specWeatherPenalty true (toUpperAscii c5Car.tireset.compound)
        + c5Car.accumulated_damage_penalty + 1/5)
    ∧ stdDev c5Car.driver_consistency = (1 - c5Car.driver_consistency) * 2 :=
  c5_th_laptime_formula c5Car 70 2 (3/100) true c6Cfg (1/5) (by decide) (by decide)

/-! ## C7 — sub-step crossing predicate -/

/-- C7: for an arc-length `s*` in `[0, L)`, the crossing predicate returns
true iff `s*` lies in the half-open interval `(s_prev, s_cur]`, with
wrap-around when a new lap was started this step: on a rollover, `s*` is
crossed iff `s_prev < s*` or `s* ≤ s_cur`. -/
theorem c7_crossing_predicate (sh : StateHandler) (s_track : ℚ)
    (h0 : 0 ≤ s_track) (h1 : s_track < sh.track_length) :
    sh.getSTrackPassedThisStep s_track = true ↔
      (if sh.getNewLap = true then
        sh.s_track_prev < s_track ∨ s_track ≤ sh.s_track_cur
      else
        sh.s_track_prev < s_track ∧ s_track ≤ sh.s_track_cur) := by
  unfold StateHandler.getSTrackPassedThisStep
  cases hnl : sh.getNewLap <;> simp [hnl] <;> tauto

/-- C7 witness: a rollover step from 4900 m back to 50 m on a 5000 m track
crosses the 20 m mark. -/
theorem c7_crossing_predicate_witness :
    ((⟨5000, 4900, 50, 0, 1⟩ : StateHandler).getSTrackPassedThisStep 20 = true ↔
      (if (⟨5000, 4900, 50, 0, 1⟩ : StateHandler).getNewLap = true then
        (4900 : ℚ) < 20 ∨ (20 : ℚ) ≤ 50
      else
        (4900 : ℚ) < 20 ∧ (20 : ℚ) ≤ 50)) :=
  c7_crossing_predicate ⟨5000, 4900, 50, 0, 1⟩ 20 (by norm_num) (by norm_num)

/-! ## C9 — unknown-compound lookup -/

/-- A tire configuration with five pairwise distinct compound entries. -/
def c9Cfg : TireConfig :=
  { soft := { k0 := 1, k1_lin := 0, k1_scale := 0, default_cliff_age := 0,
              default_k2 := 0, base_offset := 0 },
    medium := { k0 := 2, k1_lin := 0, k1_scale := 0, default_cliff_age := 0,
                default_k2 := 0, base_offset := 0 },
    hard := { k0 := 3, k1_lin := 0, k1_scale := 0, default_cliff_age := 0,
              default_k2 := 0, base_offset := 0 },
    intermediate := { k0 := 4, k1_lin := 0, k1_scale := 0, default_cliff_age := 0,
                      default_k2 := 0, base_offset := 0 },
    wet := { k0 := 5, k1_lin := 0, k1_scale := 0, default_cliff_age := 0,
             default_k2 := 0, base_offset := 0 } }

/-- C9 counterexample: the unknown compound name `SUPERSOFT` is not rejected;
`TireConfig::for_compound` silently returns the MEDIUM compound's
parameters (the source's `_ => &self.medium // neutral fallback` arm), so an
unknown compound is not a fatal configuration error. -/
theorem c9_unknown_compound_counterexample :
    c9Cfg.forCompound "SUPERSOFT" = c9Cfg.medium
    ∧ c9Cfg.forCompound "SUPERSOFT" ≠ c9Cfg.soft
    ∧ toUpperAscii "SUPERSOFT" ∉
        (["SOFT", "MEDIUM", "HARD", "INTERMEDIATE", "WET"] : List String) := by decide

/-- C9 (amended): for every compound name not among the five known compounds
(case-insensitively), `for_compound` silently substitutes the MEDIUM
compound's parameters instead of failing. -/
theorem c9_unknown_compound_fallback (cfg : TireConfig) (comp : String)
    (h : toUpperAscii comp ∉
      (["SOFT", "MEDIUM", "HARD", "INTERMEDIATE", "WET"] : List String)) :
    cfg.forCompound comp = cfg.medium := by
  unfold TireConfig.forCompound
  simp only [List.mem_cons, List.not_mem_nil, or_false, not_or] at h
  obtain ⟨h1, h2, h3, h4, h5⟩ := h
  simp [h1, h2, h3, h4, h5]

/-- C9 witness for the amended statement at a concrete unknown compound. -/
theorem c9_unknown_compound_fallback_witness :
    c9Cfg.forCompound "ULTRASOFT" = c9Cfg.medium :=
  c9_unknown_compound_fallback c9Cfg "ULTRASOFT" (by decide)

/-! ## C10 — fuel invariant -/

/-- C10: at construction the fuel is raised to at least
`b_fuel_per_lap·tot_no_laps·(1 + fuel_margin)`; a completed lap
(`Car::drive_lap`) never increases the fuel mass, decreases it by at most
`b_fuel_per_lap`, and never makes it negative. -/
theorem c10_fuel_invariant (car : Car) (tot_no_laps : ℕ) (fuel_margin : ℚ)
    (engine_fails : Bool)
    (hb : 0 ≤ car.b_fuel_per_lap) (hm : 0 ≤ car.m_fuel) :
    car.b_fuel_per_lap * (tot_no_laps : ℚ) * (1 + fuel_margin)
        ≤ initFuelMass car.m_fuel car.b_fuel_per_lap tot_no_laps fuel_margin
    ∧ (car.driveLap engine_fails).m_fuel ≤ car.m_fuel
    ∧ car.m_fuel - (car.driveLap engine_fails).m_fuel ≤ car.b_fuel_per_lap
    ∧ 0 ≤ (car.driveLap engine_fails).m_fuel := by
  have hfuel : (car.driveLap engine_fails).m_fuel =
      if car.status = CarStatus.dnf then car.m_fuel
      else if car.m_fuel > 0 then max (car.m_fuel - car.b_fuel_per_lap) 0 else car.m_fuel := by
    unfold Car.driveLap
    by_cases hd : car.status = CarStatus.dnf
    · rw [if_pos hd, if_pos hd]
    · rw [if_neg hd, if_neg hd]
      cases engine_fails <;> by_cases hf : car.m_fuel > 0 <;>
        simp [hf]
  refine ⟨?_, ?_, ?_, ?_⟩
  · unfold initFuelMass fuelNeededForLaps setFuelMass
    simp only []
    split
    · rw [mul_assoc]
      exact le_max_left _ _
    · next h => rw [mul_assoc]; linarith [not_lt.mp h]
  · rw [hfuel]
    split
    · exact le_refl _
    · split
      · exact max_le (by linarith) (by linarith)
      · exact le_refl _
  · rw [hfuel]
    split
    · linarith
    · split
      · have := le_max_left (car.m_fuel - car.b_fuel_per_lap) (0 : ℚ)
        linarith
      · linarith
  · rw [hfuel]
    split
    · exact hm
    · split
      · exact le_max_right _ _
      · exact hm

/-- C10 witness: a car with 10 kg of fuel burning 3 kg per lap over a 5-lap
target with 5% margin. -/
theorem c10_fuel_invariant_witness :
    c5Car.b_fuel_per_lap * ((5 : ℕ) : ℚ) * (1 + 1/20)
        ≤ initFuelMass c5Car.m_fuel c5Car.b_fuel_per_lap 5 (1/20)
    ∧ (c5Car.driveLap false).m_fuel ≤ c5Car.m_fuel
    ∧ c5Car.m_fuel - (c5Car.driveLap false).m_fuel ≤ c5Car.b_fuel_per_lap
    ∧ 0 ≤ (c5Car.driveLap false).m_fuel :=
  c10_fuel_invariant c5Car 5 (1/20) false (by norm_num [c5Car]) (by norm_num [c5Car])

/-! ## C4 — DNF cars are frozen -/

/-- C4: a DNF car's theoretical lap time (`calc_th_laptime` lines 459-462)
and current lap time (`calc_cur_laptimes` lines 507-509) are set to INF; a
step of `update_race_prog` with an infinite current lap time advances the
position by `dt / INF · L = 0`, so `s_cur` and the completed-lap counter
are unchanged; and `drive_lap` leaves a DNF car DNF, so the same holds at
every subsequent step. -/
theorem c4_dnf_car_frozen (car : Car) (t_q t_gap_racepace s_mass : ℚ) (is_wet : Bool)
    (tire_cfg : TireConfig) (random_factor : ℚ) (th : FTime)
    (multipliers : List ℚ) (track_length s_track : ℚ)
    (sh : StateHandler) (dt : ℚ) (engine_fails : Bool)
    (hdnf : car.status = CarStatus.dnf)
    (hs : sh.s_track_cur < sh.track_length) :
    calcThLaptime car t_q t_gap_racepace s_mass is_wet tire_cfg random_factor = FTime.inf
    ∧ calcCurLaptimeBase car th multipliers track_length s_track = FTime.inf
    ∧ (sh.updateRaceProg FTime.inf dt).s_track_cur = sh.s_track_cur
    ∧ (sh.updateRaceProg FTime.inf dt).compl_lap_cur = sh.compl_lap_cur
    ∧ (car.driveLap engine_fails).status = CarStatus.dnf := by
  have hupd : sh.updateRaceProg FTime.inf dt =
      { sh with compl_lap_prev := sh.compl_lap_cur, s_track_prev := sh.s_track_cur } := by
    unfold StateHandler.updateRaceProg
    simp only [FTime.advance, add_zero]
    rw [if_neg (not_le.mpr hs)]
  refine ⟨?_, ?_, ?_, ?_, ?_⟩
  · unfold calcThLaptime
    rw [if_pos hdnf]
  · unfold calcCurLaptimeBase
    rw [if_pos hdnf]
  · rw [hupd]
  · rw [hupd]
  · unfold Car.driveLap
    rw [if_pos hdnf]
    exact hdnf

/-- A crashed car used by the C4 witness. -/
def c4Car : Car :=
  { status := CarStatus.dnf, t_car := 0, m_fuel := 50, b_fuel_per_lap := 2,
    strategy := [], driver_t_driver := 0, driver_consistency := 1,
    tireset := Tireset.new "SOFT" 0, dirty_air_wear_factor := 1,
    last_slick_compound := some "SOFT", accumulated_damage_penalty := 0 }

/-- C4 witness: the frozen-car properties at a concrete DNF car and state. -/
theorem c4_dnf_car_frozen_witness :
    calcThLaptime c4Car 70 2 (3/100) false c6Cfg 0 = FTime.inf
    ∧ calcCurLaptimeBase c4Car (FTime.fin 80) [1, 1] 5000 1200 = FTime.inf
    ∧ (StateHandler.updateRaceProg ⟨5000, 1200, 1200, 3, 3⟩ FTime.inf (1/10)).s_track_cur
        = (⟨5000, 1200, 1200, 3, 3⟩ : StateHandler).s_track_cur
    ∧ (StateHandler.updateRaceProg ⟨5000, 1200, 1200, 3, 3⟩ FTime.inf (1/10)).compl_lap_cur
        = (⟨5000, 1200, 1200, 3, 3⟩ : StateHandler).compl_lap_cur
    ∧ (c4Car.driveLap false).status = CarStatus.dnf :=
  c4_dnf_car_frozen c4Car 70 2 (3/100) false c6Cfg 0 (FTime.fin 80) [1, 1] 5000 1200
    ⟨5000, 1200, 1200, 3, 3⟩ (1/10) false (by decide) (by norm_num)

/-! ## C8 — safety-car deployment after a DNF -/

/-- Under a non-SC flag the insertion block only clears the SC-active bit
(`race.rs` lines 403-405). -/
theorem scInsertionStep_not_sc (st : ScState) (cars : List CarView)
    (track_length timestep_size cur_racetime : ℚ) (h : st.flag_state ≠ FlagState.sc) :
    scInsertionStep st cars track_length timestep_size cur_racetime =
      { st with safety_car := { st.safety_car with active := false } } := by
  unfold scInsertionStep
  rw [if_neg h]

/-- The trigger scan never modifies the event log. -/
theorem scTriggerStep_events (st : ScState) (statuses : List CarStatus)
    (race_finished : List Bool) :
    (scTriggerStep st statuses race_finished).events = st.events := by
  unfold scTriggerStep
  split
  · rfl
  · split <;> rfl

/-- The trigger scan never modifies the safety-car record. -/
theorem scTriggerStep_safety_car (st : ScState) (statuses : List CarStatus)
    (race_finished : List Bool) :
    (scTriggerStep st statuses race_finished).safety_car = st.safety_car := by
  unfold scTriggerStep
  split
  · rfl
  · split <;> rfl

/-- If some car is DNF, unfinished and not yet trigger-consumed while the
flag is not SC, the trigger scan sets the flag to SC and marks every DNF
car as consumed (`race.rs` lines 407-425). -/
theorem scTriggerStep_fires (st : ScState) (statuses : List CarStatus)
    (race_finished : List Bool) (i : ℕ) (hi : i < statuses.length)
    (hdnf : statuses.getD i CarStatus.running = CarStatus.dnf)
    (hfin : race_finished.getD i true = false)
    (htrig : st.sc_triggers.getD i true = false)
    (hflag : st.flag_state ≠ FlagState.sc) :
    (scTriggerStep st statuses race_finished).flag_state = FlagState.sc
    ∧ ∀ j, j < st.sc_triggers.length → statuses.getD j CarStatus.running = CarStatus.dnf →
        (scTriggerStep st statuses race_finished).sc_triggers.getD j false = true := by
  have hfind : ((List.range statuses.length).find? (fun i =>
      statuses.getD i CarStatus.running == CarStatus.dnf
        && !(race_finished.getD i true)
        && !(st.sc_triggers.getD i true))).isSome := by
    rw [List.find?_isSome]
    refine ⟨i, List.mem_range.2 hi, ?_⟩
    simp only [List.getD_eq_getElem?_getD] at hdnf hfin htrig
    simp [hdnf, hfin, htrig]
  obtain ⟨k, hk⟩ := Option.isSome_iff_exists.mp hfind
  unfold scTriggerStep
  rw [if_neg hflag, hk]
  refine ⟨rfl, ?_⟩
  intro j hj hjdnf
  simp only [List.getD_eq_getElem?_getD] at hjdnf ⊢
  simp [List.getElem?_map, List.getElem?_range, hj, hjdnf]

/-- The events of the SC fragment of a step are those left by the insertion
block (the trigger scan adds none). -/
theorem simulateTimestepSc_events (st : ScState) (cars : List CarView)
    (race_finished : List Bool) (track_length timestep_size cur_racetime : ℚ) :
    (simulateTimestepSc st cars race_finished track_length timestep_size cur_racetime).events
      = (scInsertionStep st cars track_length timestep_size cur_racetime).events := by
  unfold simulateTimestepSc
  rw [scTriggerStep_events]

/-- Under flag SC with the safety car not yet active, the insertion block
appends the `SC_DEPLOYED` event (`race.rs` lines 374-380). -/
theorem scInsertionStep_deploy_event (st : ScState) (cars : List CarView)
    (track_length timestep_size cur_racetime : ℚ)
    (hflag : st.flag_state = FlagState.sc) (hactive : st.safety_car.active = false) :
    ∃ tail, (scInsertionStep st cars track_length timestep_size cur_racetime).events
      = st.events ++ (⟨"SC_DEPLOYED", st.cur_lap_leader, cur_racetime, []⟩ : RaceEvent) :: tail := by
  unfold scInsertionStep
  rw [if_pos hflag]
  by_cases ht : st.sc_timer - timestep_size ≤ (0 : ℚ)
  · exact ⟨[⟨"SC_IN", st.cur_lap_leader, cur_racetime, []⟩], by simp [hactive, ht]⟩
  · exact ⟨[], by simp [hactive, ht]⟩

/-- The concrete SC state used by the C8 counterexample: green flag, no SC,
nothing triggered yet, empty event log. -/
def c8St : ScState :=
  { flag_state := FlagState.g, safety_car := { active := false, s_track := 0, speed := 50, lap := 0 },
    sc_timer := 0, cur_lap_leader := 1, events := [], sc_triggers := [false, false] }

/-- The concrete cars of the C8 counterexample: car 0 has just gone DNF on
track, car 1 is running. -/
def c8Cars : List CarView :=
  [⟨CarStatus.dnf, 0, 0⟩, ⟨CarStatus.running, 1/2, 1500⟩]

/-- C8 counterexample: in the very step that handles the fresh DNF (flag G,
no SC active), the flag becomes SC and the DNF car is marked as
trigger-consumed, but NO `SC_DEPLOYED` event is emitted within that step —
the event log is still empty (the insertion block, which alone pushes
`SC_DEPLOYED`, ran before the trigger scan and will only emit on the next
step). -/
theorem c8_sc_deployment_counterexample :
    (simulateTimestepSc c8St c8Cars [false, false] 5000 1 1).flag_state = FlagState.sc
    ∧ (simulateTimestepSc c8St c8Cars [false, false] 5000 1 1).sc_triggers = [true, false]
    ∧ (simulateTimestepSc c8St c8Cars [false, false] 5000 1 1).events = [] := by decide

/-- C8 (amended): when a car is DNF, unfinished and not yet trigger-consumed
while no SC is active and the flag is neither SC nor C, then within one
simulation step the flag becomes SC and every currently-DNF car is marked
trigger-consumed, with no event emitted in that step; the `SC_DEPLOYED`
event is appended during the following step's SC handling (provided the
flag is still SC then); and marked cars can never re-trigger a deployment. -/
theorem c8_sc_deployment (st : ScState) (cars cars2 : List CarView)
    (race_finished race_finished2 : List Bool)
    (track_length timestep_size t1 t2 : ℚ) (i : ℕ)
    (hlen : st.sc_triggers.length = cars.length)
    (hi : i < cars.length)
    (hdnf : (cars.getD i ⟨CarStatus.running, 0, 0⟩).status = CarStatus.dnf)
    (hfin : race_finished.getD i true = false)
    (htrig : st.sc_triggers.getD i true = false)
    (hflag : st.flag_state ≠ FlagState.sc)
    (hflagc : st.flag_state ≠ FlagState.c)
    (hactive : st.safety_car.active = false) :
    (simulateTimestepSc st cars race_finished track_length timestep_size t1).flag_state
        = FlagState.sc
    ∧ (∀ j, j < cars.length →
        (cars.getD j ⟨CarStatus.running, 0, 0⟩).status = CarStatus.dnf →
        (simulateTimestepSc st cars race_finished track_length timestep_size t1).sc_triggers.getD
            j false = true)
    ∧ (simulateTimestepSc st cars race_finished track_length timestep_size t1).events = st.events
    ∧ (∃ e ∈ (simulateTimestepSc
          (simulateTimestepSc st cars race_finished track_length timestep_size t1)
          cars2 race_finished2 track_length timestep_size t2).events,
        e.kind = "SC_DEPLOYED")
    ∧ (∀ (st2 : ScState) (statuses2 : List CarStatus) (finished2 : List Bool),
        (∀ j, j < statuses2.length → statuses2.getD j CarStatus.running = CarStatus.dnf →
          st2.sc_triggers.getD j true = true) →
        scTriggerStep st2 statuses2 finished2 = st2) := by
  have hins : scInsertionStep st cars track_length timestep_size t1 =
      { st with safety_car := { st.safety_car with active := false } } :=
    scInsertionStep_not_sc st cars track_length timestep_size t1 hflag
  have hstatuses : ∀ j, j < cars.length →
      (cars.map (fun cv => cv.status)).getD j CarStatus.running
        = (cars.getD j ⟨CarStatus.running, 0, 0⟩).status := by
    intro j hj
    simp [List.getD_eq_getElem?_getD, List.getElem?_map, List.getElem?_eq_getElem hj]
  have hfires := scTriggerStep_fires
    { st with safety_car := { st.safety_car with active := false } }
    (cars.map (fun cv => cv.status)) race_finished i
    (by simpa using hi) (by rw [hstatuses i hi]; exact hdnf) hfin htrig hflag
  have hstep1 : simulateTimestepSc st cars race_finished track_length timestep_size t1
      = scTriggerStep { st with safety_car := { st.safety_car with active := false } }
          (cars.map (fun cv => cv.status)) race_finished := by
    unfold simulateTimestepSc
    rw [hins]
  refine ⟨?_, ?_, ?_, ?_, ?_⟩
  · rw [hstep1]
    exact hfires.1
  · intro j hj hjdnf
    rw [hstep1]
    exact hfires.2 j (by rw [hlen]; exact hj) (by rw [hstatuses j hj]; exact hjdnf)
  · rw [hstep1]
    exact scTriggerStep_events _ _ _
  · obtain ⟨tail, htail⟩ := scInsertionStep_deploy_event
      (simulateTimestepSc st cars race_finished track_length timestep_size t1) cars2
      track_length timestep_size t2
      (by rw [hstep1]; exact hfires.1)
      (by rw [hstep1, scTriggerStep_safety_car])
    refine ⟨⟨"SC_DEPLOYED",
      (simulateTimestepSc st cars race_finished track_length timestep_size t1).cur_lap_leader,
      t2, []⟩, ?_, rfl⟩
    rw [simulateTimestepSc_events, htail]
    exact List.mem_append_right _ (List.mem_cons_self _ _)
  · intro st2 statuses2 finished2 hmarked
    unfold scTriggerStep
    split
    · rfl
    · have hnone : (List.range statuses2.length).find? (fun i =>
          statuses2.getD i CarStatus.running == CarStatus.dnf
            && !(finished2.getD i true)
            && !(st2.sc_triggers.getD i true)) = none := by
        rw [List.find?_eq_none]
        intro x hx
        have hxlt : x < statuses2.length := List.mem_range.mp hx
        by_cases hxd : statuses2.getD x CarStatus.running = CarStatus.dnf
        · have hm := hmarked x hxlt hxd
          simp only [List.getD_eq_getElem?_getD] at hxd hm
          simp [hxd, hm]
        · simp only [List.getD_eq_getElem?_getD] at hxd
          simp [hxd]
      rw [hnone]

/-- C8 witness for the amended statement: the concrete counterexample
scenario followed by one more step, in which `SC_DEPLOYED` appears. -/
theorem c8_sc_deployment_witness :
    (simulateTimestepSc c8St c8Cars [false, false] 5000 1 1).flag_state = FlagState.sc
    ∧ (∀ j, j < c8Cars.length →
        (c8Cars.getD j ⟨CarStatus.running, 0, 0⟩).status = CarStatus.dnf →
        (simulateTimestepSc c8St c8Cars [false, false] 5000 1 1).sc_triggers.getD j false = true)
    ∧ (simulateTimestepSc c8St c8Cars [false, false] 5000 1 1).events = c8St.events
    ∧ (∃ e ∈ (simulateTimestepSc (simulateTimestepSc c8St c8Cars [false, false] 5000 1 1)
          c8Cars [false, false] 5000 1 2).events, e.kind = "SC_DEPLOYED")
    ∧ (∀ (st2 : ScState) (statuses2 : List CarStatus) (finished2 : List Bool),
        (∀ j, j < statuses2.length → statuses2.getD j CarStatus.running = CarStatus.dnf →
          st2.sc_triggers.getD j true = true) →
        scTriggerStep st2 statuses2 finished2 = st2) :=
  c8_sc_deployment c8St c8Cars c8Cars [false, false] [false, false] 5000 1 1 2 0
    (by decide) (by decide) (by decide) (by decide) (by decide) (by decide) (by decide)
    (by decide)

end RaceSim
